import Mathlib

/-!
Verification of the image upload pipeline of
`src/components/utility-components/file-uploader.tsx`.

The file shallowly embeds the pipeline: files are records of their observable
attributes, the dynamically typed server responses are a `JSValue` datatype,
the browser / network environment (image decoding, canvas re-encoding, the
blossom upload collaborator) is a record of oracle functions, and the
`Promise.all` join is an explicit function on lists of `Except` outcomes.
The pipeline is modelled as a pure function from the environment and the
file batch to the run's observable outcome (returned URLs, the sequence of
progress updates, the surfaced failure text, and the upload-collaborator
calls made).
-/

set_option autoImplicit false

namespace FileUploader

/-- A file handle as the component observes it: display name, declared media
type, declared byte size, last-modified timestamp. -/
structure ImageFile where
  name : String
  type : String
  size : Nat
  lastModified : Nat
  deriving Repr, DecidableEq

/-- Source: `const MAX_FILE_SIZE = 5 * 1024 * 1024` (5 MB in bytes). -/
def MAX_FILE_SIZE : Nat := 5 * 1024 * 1024

/-- Source: `const ALLOWED_TYPES = ["image/jpeg", "image/png", "image/webp"]`. -/
def ALLOWED_TYPES : List String := ["image/jpeg", "image/png", "image/webp"]

/-- A dynamically typed JavaScript value, as far as the response-resolving
code can distinguish values: strings, arrays, `null`, and everything else
(numbers, objects, `undefined`, ...), the latter carrying only its
truthiness. -/
inductive JSValue where
  | str (s : String)
  | arr (elems : List JSValue)
  | nullV
  | other (truthy : Bool)

/-- Models `Array.isArray`. -/
def JSValue.isArray : JSValue → Bool
  | .arr _ => true
  | _ => false

/-- JavaScript truthiness: `""`, `null`, `false`, `0`, `NaN`, `undefined`
are falsy; arrays and non-empty strings are truthy. -/
def JSValue.jsTruthy : JSValue → Bool
  | .str s => !(s == "")
  | .arr _ => true
  | .nullV => false
  | .other t => t

/-- Is this value `null`? Models the `url !== null` / `imgUrl !== null`
comparisons. -/
def JSValue.isNull : JSValue → Bool
  | .nullV => true
  | _ => false

/-- A value thrown by JavaScript code: either an `Error` carrying a message
(`e instanceof Error`), or any other thrown value. -/
inductive JsError where
  | error (msg : String)
  | nonError
  deriving Repr, DecidableEq

/-- Validation failure message for a disallowed media type (source line 112). -/
def typeErrMsg : String := "Only JPEG, PNG, or WebP images are supported!"

/-- Validation failure message for an oversized file; the template literal
interpolates `MAX_FILE_SIZE / (1024 * 1024) = 5` (source line 119). -/
def sizeErrMsg : String := "Each image must be smaller than 5 MB"

/-- The aggregate failure shown when no URL could be resolved (source
lines 181-183). -/
def serverErrMsg : String :=
  "Image upload failed to yield a URL! Change your Blossom media server in settings or try again."

/-- The fallback failure text used when the thrown value is not an `Error`
(source line 192). -/
def genericErrMsg : String :=
  "Failed to upload image! Change your Blossom media server in settings."

/-- Models `e instanceof Error ? e.message : <generic fallback>` (source
lines 190-192). -/
def errText : JsError → String
  | .error m => m
  | .nonError => genericErrMsg

/-- The built-in default blossom endpoint (source line 153). -/
def defaultServer : String := "https://cdn.nostrcheck.me"

/-- Models `blossomServers && blossomServers.length > 0 ? blossomServers :
["https://cdn.nostrcheck.me"]` (source lines 151-153); `none` models an
absent/undefined configuration. -/
def effectiveServers : Option (List String) → List String
  | some l => if l.length > 0 then l else [defaultServer]
  | none => [defaultServer]

/-- Models `Math.round (num / den)` on non-negative rationals, for `den > 0`:
`⌊num/den + 1/2⌋ = ⌊(2*num + den) / (2*den)⌋`. -/
def jsRound (num den : Nat) : Nat := (2 * num + den) / (2 * den)

/-- The progress value set after the sanitize operation of the item with
submission index `i` resolves: `Math.round(((idx + 1) / n) * 30)`
(source line 138). -/
def stage1Prog (n i : Nat) : Nat := jsRound ((i + 1) * 30) n

/-- The progress value set after the upload of the item with submission
index `i` resolves: `30 + Math.round(((idx + 1) / n) * 70)`
(source line 155). -/
def stage2Prog (n i : Nat) : Nat := 30 + jsRound ((i + 1) * 70) n

/-- The sequence of progress percentages observed over one successful run,
starting with the `setProgress(0)` of line 123, when the sanitize stage's
per-item completions arrive in the order `ord1` (a permutation of the
submission indices `0..n-1`) and the upload stage's in the order `ord2`.
Each completion callback reads its own submission index `idx`. -/
def progressTrace (n : Nat) (ord1 ord2 : List Nat) : List Nat :=
  0 :: (ord1.map (stage1Prog n) ++ ord2.map (stage2Prog n))

/-- The `Promise.all` join on settled outcomes: rejects with the first
rejection if any input rejects, otherwise resolves with the list of all
resolved values. -/
def promiseAll {ε α : Type} : List (Except ε α) → Except ε (List α)
  | [] => .ok []
  | .error e :: _ => .error e
  | .ok a :: xs =>
    match promiseAll xs with
    | .error e => .error e
    | .ok as => .ok (a :: as)

/-- The progress updates a stage emits, in submission order, one per item
that settled successfully before the first rejection (each successful item
calls `setProgress` with its own index's value). -/
def stageEvents {α : Type} (prog : Nat → Nat) : List (Except JsError α) → Nat → List Nat
  | [], _ => []
  | .error _ :: _, _ => []
  | .ok _ :: xs, i => prog i :: stageEvents prog xs (i + 1)

/-- Outcome of `new window.Image()` decoding: the image loaded with some
dimensions, or `img.onerror` fired. -/
inductive DecodeResult where
  | loaded (width height : Nat)
  | failed

/-- The browser-side environment `stripImageMetadata` runs against. -/
structure CanvasEnv where
  load : ImageFile → DecodeResult
  getContextOk : Bool
  toBlob : ImageFile → Option (List Nat)
  now : Nat

/-- Models `stripImageMetadata` (source lines 58-96): decode the image, draw it on
a fresh canvas, re-encode via `canvas.toBlob` into the same declared type,
and wrap the blob as a new `File` with the original name, the original
declared type, and `lastModified: Date.now()`. Each failure path rejects
with the corresponding `Error`. -/
def stripImageMetadata (env : CanvasEnv) (imageFile : ImageFile) : Except JsError ImageFile :=
  match env.load imageFile with
  | .failed => .error (.error "Failed to load image")
  | .loaded _ _ =>
    if !env.getContextOk then
      .error (.error "Failed to get canvas context")
    else
      match env.toBlob imageFile with
      | none => .error (.error "Failed to create blob")
      | some bytes =>
        .ok { name := imageFile.name, type := imageFile.type,
              size := bytes.length, lastModified := env.now }

/-- Models `Array.isArray(tag) && tag[0] === "url"` — the predicate the source's
`response.find` uses (source line 165). Note it does NOT check the tag's
length. -/
def tagIsUrl : JSValue → Bool
  | .arr (JSValue.str s :: _) => s == "url"
  | _ => false

/-- The Response Resolver (source lines 163-171): on an array response,
find the first tag that is an array whose first element is the string
`"url"`; if that tag has length `> 1` return its second element, else
`null`; on a non-array response, `null` (`null` models absence). -/
def resolveResponse : JSValue → JSValue
  | .arr tags =>
    match tags.find? tagIsUrl with
    | some (.arr es) => if es.length > 1 then es.getD 1 .nullV else .nullV
    | _ => .nullV
  | _ => .nullV

/-- Modelled from the claim's words (for comparison with the source's
`resolveResponse`): locate the first tag whose first element equals `"url"`
AND whose length is at least 2, and return its second element; absence
otherwise. -/
def tagIsUrlAndLong (t : JSValue) : Bool :=
  match t with
  | .arr (JSValue.str s :: rest) => s == "url" && !rest.isEmpty
  | _ => false

/-- Modelled from the claim's words: the resolver the claim describes,
which skips `url` tags of length `< 2` when searching. -/
def resolveClaim : JSValue → JSValue
  | .arr tags =>
    match tags.find? tagIsUrlAndLong with
    | some (.arr es) => es.getD 1 .nullV
    | _ => .nullV
  | _ => .nullV

/-- Models `responses.filter(r => r && Array.isArray(r)).map(resolveResponse)
.filter(url => url !== null)` (source lines 161-172). -/
def imageUrlsOf (responses : List JSValue) : List JSValue :=
  ((responses.filter (fun r => r.jsTruthy && r.isArray)).map resolveResponse).filter
    (fun u => !u.isNull)

/-- The environment one invocation of `uploadImages` runs against:
session state, configured endpoints, the browser canvas oracle, the
preview reader oracle, and the blossom upload collaborator oracle. -/
structure PipelineEnv where
  isLoggedIn : Bool
  blossomServers : Option (List String)
  canvas : CanvasEnv
  preview : ImageFile → Except JsError String
  upload : ImageFile → List String → Except JsError JSValue

/-- Everything observable about one completed run of `uploadImages`:
the returned URL list, every `setProgress` call in order (`none` is the
`null` sentinel), the failure text set (if any), whether the failure modal
was shown, and each `blossomUploadImages` call with its endpoint list. -/
structure RunResult where
  urls : List JSValue
  progressEvents : List (Option Nat)
  failure : Option String
  modalShown : Bool
  uploadCalls : List (ImageFile × List String)

/-- Character-list prefix test, the meaning of
`String.prototype.startsWith`. -/
def strStartsWithChars : List Char → List Char → Bool
  | _, [] => true
  | [], _ :: _ => false
  | c :: cs, p :: ps => c == p && strStartsWithChars cs ps

/-- Models `s.startsWith(pre)` on JavaScript strings, as a character-wise prefix
test. -/
def jsStartsWith (s pre : String) : Bool := strStartsWithChars s.data pre.data

/-- Models `imageFiles.some(f => !f.type.startsWith("image/") ||
!ALLOWED_TYPES.includes(f.type))` (source lines 104-110). -/
def typeCheckFails (files : List ImageFile) : Bool :=
  files.any (fun f => !(jsStartsWith f.type "image/") || !(ALLOWED_TYPES.contains f.type))

/-- Models `imageFiles.some(f => f.size > MAX_FILE_SIZE)` (source line 117). -/
def sizeCheckFails (files : List ImageFile) : Bool :=
  files.any (fun f => decide (MAX_FILE_SIZE < f.size))

/-- The settled preview outcomes (`getBase64` per file, source
lines 126-131). -/
def previewOutcomes (env : PipelineEnv) (files : List ImageFile) : List (Except JsError String) :=
  files.map env.preview

/-- The settled sanitize outcomes (`stripImageMetadata` per file, source
lines 135-141). -/
def sanOutcomes (env : PipelineEnv) (files : List ImageFile) : List (Except JsError ImageFile) :=
  files.map (stripImageMetadata env.canvas)

/-- The settled upload outcomes (`blossomUploadImages` per sanitized file
with the effective server list, source lines 146-158). -/
def upOutcomes (env : PipelineEnv) (stripped : List ImageFile) : List (Except JsError JSValue) :=
  stripped.map (fun f => env.upload f (effectiveServers env.blossomServers))

/-- The `blossomUploadImages` invocations the upload stage makes: one per
sanitized file, each with the full effective endpoint list. -/
def uploadCallsOf (env : PipelineEnv) (stripped : List ImageFile) :
    List (ImageFile × List String) :=
  stripped.map (fun f => (f, effectiveServers env.blossomServers))

/-- Progress updates of the sanitize stage, in settlement order of the
sequential model (submission order). -/
def sanEvents (env : PipelineEnv) (files : List ImageFile) : List (Option Nat) :=
  (stageEvents (stage1Prog files.length) (sanOutcomes env files) 0).map some

/-- Progress updates of the upload stage. The divisor is
`strippedImageFiles.length` as in source line 155. -/
def upEvents (env : PipelineEnv) (stripped : List ImageFile) : List (Option Nat) :=
  (stageEvents (stage2Prog stripped.length) (upOutcomes env stripped) 0).map some

/-- The observable outcome of entering the `catch` block (source
lines 187-196): empty result, `setProgress(null)`, failure text from the
thrown value, modal shown. -/
def catchResult (evs : List (Option Nat)) (e : JsError)
    (calls : List (ImageFile × List String)) : RunResult :=
  { urls := [], progressEvents := evs ++ [none], failure := some (errText e),
    modalShown := true, uploadCalls := calls }

/-- The final phase (source lines 174-186): the deferred `setProgress(null)`,
then either return the non-empty URL list, or set the aggregate
server-misconfiguration failure and return `[]`. -/
def finalize (evs : List (Option Nat)) (calls : List (ImageFile × List String))
    (responses : List JSValue) : RunResult :=
  if (imageUrlsOf responses).length > 0 then
    { urls := imageUrlsOf responses, progressEvents := evs ++ [none], failure := none,
      modalShown := false, uploadCalls := calls }
  else
    { urls := [], progressEvents := evs ++ [none], failure := some serverErrMsg,
      modalShown := true, uploadCalls := calls }

/-- Models `uploadImages` (source lines 99-197), sequentialised: validation throws
abort before any progress update; `setProgress(0)`; previews joined with
`Promise.all`; the sanitize stage joined with `Promise.all`; when logged
in, the upload stage joined with `Promise.all` (every upload call is
initiated before the join settles); then URL resolution and finalization.
Any rejection reaches the `catch` block with the progress updates emitted
so far. -/
def uploadImages (env : PipelineEnv) (files : List ImageFile) : RunResult :=
  if typeCheckFails files then
    catchResult [] (.error typeErrMsg) []
  else if sizeCheckFails files then
    catchResult [] (.error sizeErrMsg) []
  else
    match promiseAll (previewOutcomes env files) with
    | .error e => catchResult [some 0] e []
    | .ok _ =>
      match promiseAll (sanOutcomes env files) with
      | .error e => catchResult (some 0 :: sanEvents env files) e []
      | .ok stripped =>
        if env.isLoggedIn then
          match promiseAll (upOutcomes env stripped) with
          | .error e =>
            catchResult (some 0 :: sanEvents env files ++ upEvents env stripped) e
              (uploadCallsOf env stripped)
          | .ok responses =>
            finalize (some 0 :: sanEvents env files ++ upEvents env stripped)
              (uploadCallsOf env stripped) responses
        else
          finalize (some 0 :: sanEvents env files) [] []

/-- The first failure to propagate out of a stage and reach the `catch`
block, if any; `none` means the run reaches finalization normally. Follows
exactly the branch structure of `uploadImages`. -/
def firstFailure (env : PipelineEnv) (files : List ImageFile) : Option JsError :=
  if typeCheckFails files then some (.error typeErrMsg)
  else if sizeCheckFails files then some (.error sizeErrMsg)
  else
    match promiseAll (previewOutcomes env files) with
    | .error e => some e
    | .ok _ =>
      match promiseAll (sanOutcomes env files) with
      | .error e => some e
      | .ok stripped =>
        if env.isLoggedIn then
          match promiseAll (upOutcomes env stripped) with
          | .error e => some e
          | .ok _ => none
        else none

/-- Models how `handleChange` (source lines 204-217) forwards each returned URL that is
not `null` to `imgCallbackOnUpload`, one call per URL. -/
def handleChangeCallbackArgs (r : RunResult) : List JSValue :=
  r.urls.filter (fun u => !u.isNull)

/-- Models how `removePreview` and `clearAll` (source lines 254-263) both invoke
`imgCallbackOnUpload("")` as the remove/clear sentinel. -/
def removePreviewCallbackArg : JSValue := .str ""

/-! ### Concrete environments and inputs used by witnesses and
counterexamples -/

/-- A canvas environment in which every image decodes and re-encodes. -/
def canvasOkEnv : CanvasEnv :=
  { load := fun _ => .loaded 8 8, getContextOk := true,
    toBlob := fun _ => some [0, 1], now := 42 }

/-- A valid JPEG input file. -/
def fileJpeg : ImageFile :=
  { name := "a.jpg", type := "image/jpeg", size := 100, lastModified := 7 }

/-- A valid PNG input file whose decode will be made to fail in `envMixed`. -/
def filePngB : ImageFile :=
  { name := "b.png", type := "image/png", size := 200, lastModified := 7 }

/-- An input file with a disallowed media type. -/
def filePlain : ImageFile :=
  { name := "c.txt", type := "text/plain", size := 10, lastModified := 7 }

/-- A well-formed raw response carrying a `url` tag. -/
def respUrl : JSValue :=
  .arr [.arr [.str "url", .str "https://x/1.png"], .arr [.str "size", .str "100"]]

/-- An unauthenticated environment in which every per-file operation would
succeed. -/
def envUnauth : PipelineEnv :=
  { isLoggedIn := false, blossomServers := none, canvas := canvasOkEnv,
    preview := fun _ => .ok "data:image", upload := fun _ _ => .ok respUrl }

/-- An authenticated environment in which decoding fails exactly for
`filePngB` and every upload would succeed. -/
def envMixed : PipelineEnv :=
  { isLoggedIn := true, blossomServers := none,
    canvas := { load := fun f => if f.name == "b.png" then .failed else .loaded 8 8,
                getContextOk := true, toBlob := fun _ => some [0, 1], now := 42 },
    preview := fun _ => .ok "data:image", upload := fun _ _ => .ok respUrl }

/-- A response whose first `url`-keyed tag is too short while a later one
carries a URL. -/
def respSkipsShortTag : JSValue :=
  .arr [.arr [.str "url"], .arr [.str "url", .str "https://x/1.png"]]

/-- A raw response whose `url` tag carries the empty string. -/
def respEmptyUrl : JSValue := .arr [.arr [.str "url", .str ""]]

/-- An authenticated environment whose upload collaborator answers with
`respEmptyUrl`. -/
def envEmptyUrl : PipelineEnv :=
  { isLoggedIn := true, blossomServers := none, canvas := canvasOkEnv,
    preview := fun _ => .ok "data:image", upload := fun _ _ => .ok respEmptyUrl }

/-- An authenticated environment in which every image decode fails. -/
def envSanFail : PipelineEnv :=
  { isLoggedIn := true, blossomServers := none,
    canvas := { load := fun _ => .failed, getContextOk := true,
                toBlob := fun _ => some [0], now := 1 },
    preview := fun _ => .ok "data:image", upload := fun _ _ => .ok respUrl }

/-- An authenticated environment in which every image decodes fine but
every upload rejects. -/
def envUpFail : PipelineEnv :=
  { isLoggedIn := true, blossomServers := none, canvas := canvasOkEnv,
    preview := fun _ => .ok "data:image",
    upload := fun _ _ => .error (.error "Server responded with an error") }

/-! ### Helper lemmas -/

@[simp] theorem catchResult_urls (evs : List (Option Nat)) (e : JsError)
    (calls : List (ImageFile × List String)) : (catchResult evs e calls).urls = [] := rfl

@[simp] theorem catchResult_progressEvents (evs : List (Option Nat)) (e : JsError)
    (calls : List (ImageFile × List String)) :
    (catchResult evs e calls).progressEvents = evs ++ [none] := rfl

@[simp] theorem catchResult_failure (evs : List (Option Nat)) (e : JsError)
    (calls : List (ImageFile × List String)) :
    (catchResult evs e calls).failure = some (errText e) := rfl

@[simp] theorem catchResult_modalShown (evs : List (Option Nat)) (e : JsError)
    (calls : List (ImageFile × List String)) : (catchResult evs e calls).modalShown = true := rfl

@[simp] theorem catchResult_uploadCalls (evs : List (Option Nat)) (e : JsError)
    (calls : List (ImageFile × List String)) : (catchResult evs e calls).uploadCalls = calls := rfl

@[simp] theorem finalize_uploadCalls (evs : List (Option Nat))
    (calls : List (ImageFile × List String)) (rs : List JSValue) :
    (finalize evs calls rs).uploadCalls = calls := by
  unfold finalize; split <;> rfl

@[simp] theorem finalize_progressEvents (evs : List (Option Nat))
    (calls : List (ImageFile × List String)) (rs : List JSValue) :
    (finalize evs calls rs).progressEvents = evs ++ [none] := by
  unfold finalize; split <;> rfl

theorem finalize_of_empty (evs : List (Option Nat)) (calls : List (ImageFile × List String))
    (rs : List JSValue) (h : imageUrlsOf rs = []) :
    (finalize evs calls rs).urls = [] ∧
    (finalize evs calls rs).failure = some serverErrMsg ∧
    (finalize evs calls rs).modalShown = true := by
  unfold finalize
  rw [h]
  simp

theorem mem_allowed_startsWith {t : String} (h : t ∈ ALLOWED_TYPES) :
    jsStartsWith t "image/" = true := by
  simp only [ALLOWED_TYPES, List.mem_cons, List.not_mem_nil, or_false] at h
  rcases h with h | h | h <;> subst h <;> rfl

theorem typeCond_iff (t : String) :
    (!(jsStartsWith t "image/") || !(ALLOWED_TYPES.contains t)) = true ↔ t ∉ ALLOWED_TYPES := by
  simp only [Bool.or_eq_true, Bool.not_eq_true', List.contains, List.elem_eq_mem,
    decide_eq_false_iff_not]
  constructor
  · rintro (h1 | h1)
    · intro ht
      rw [mem_allowed_startsWith ht] at h1
      cases h1
    · exact h1
  · exact fun h => Or.inr h

theorem jsRound_le_jsRound {a b : Nat} (n : Nat) (h : a ≤ b) : jsRound a n ≤ jsRound b n :=
  Nat.div_le_div_right (by omega)

theorem jsRound_mul_self (n c : Nat) (hn : 0 < n) : jsRound (n * c) n = c := by
  unfold jsRound
  have h : 2 * (n * c) + n = n + 2 * n * c := by ring
  rw [h, Nat.add_mul_div_left _ _ (by omega : 0 < 2 * n),
    Nat.div_eq_of_lt (by omega : n < 2 * n), Nat.zero_add]

theorem jsRound_le_of_le {a c : Nat} (n : Nat) (hn : 0 < n) (h : a ≤ n * c) :
    jsRound a n ≤ c := by
  calc jsRound a n ≤ jsRound (n * c) n := jsRound_le_jsRound n h
  _ = c := jsRound_mul_self n c hn

theorem stage1Prog_last (n : Nat) (hn : 0 < n) : stage1Prog n (n - 1) = 30 := by
  unfold stage1Prog
  have h : n - 1 + 1 = n := by omega
  rw [h]
  exact jsRound_mul_self n 30 hn

theorem stage1Prog_le (n i : Nat) (hn : 0 < n) (hi : i < n) : stage1Prog n i ≤ 30 := by
  unfold stage1Prog
  exact jsRound_le_of_le n hn (by nlinarith)

theorem stage2Prog_last (n : Nat) (hn : 0 < n) : stage2Prog n (n - 1) = 100 := by
  unfold stage2Prog
  have h : n - 1 + 1 = n := by omega
  rw [h, jsRound_mul_self n 70 hn]

theorem stage2Prog_bounds (n i : Nat) (hn : 0 < n) (hi : i < n) :
    30 ≤ stage2Prog n i ∧ stage2Prog n i ≤ 100 := by
  refine ⟨Nat.le_add_right 30 _, ?_⟩
  unfold stage2Prog
  have h : jsRound ((i + 1) * 70) n ≤ 70 := jsRound_le_of_le n hn (by nlinarith)
  omega

theorem chain_le_map_range (f : Nat → Nat) (hf : ∀ i, f i ≤ f (i + 1)) (n : Nat) :
    List.Chain' (· ≤ ·) ((List.range n).map f) := by
  cases n with
  | zero => simp
  | succ m =>
    rw [List.chain'_map]
    exact (List.chain'_range_succ _ m).mpr (fun i _ => hf i)

theorem promiseAll_isError_of_mem {ε α : Type} {l : List (Except ε α)} {x : Except ε α}
    (hx : x ∈ l) (hxe : x.isOk = false) : ∃ e, promiseAll l = Except.error e := by
  induction l with
  | nil => cases hx
  | cons y ys ih =>
    rcases List.mem_cons.mp hx with rfl | hmem
    · cases x with
      | error e => exact ⟨e, rfl⟩
      | ok a => simp [Except.isOk, Except.toBool] at hxe
    · cases y with
      | error e2 => exact ⟨e2, rfl⟩
      | ok a =>
        obtain ⟨e, he⟩ := ih hmem
        refine ⟨e, ?_⟩
        unfold promiseAll
        rw [he]

/-! ### Claim theorems -/

/-- C8: for every successfully sanitized image, the Sanitizer's output file
has the same declared media type as its input file. -/
theorem C8_sanitize_preserves_type (env : CanvasEnv) (f g : ImageFile)
    (h : stripImageMetadata env f = Except.ok g) : g.type = f.type := by
  unfold stripImageMetadata at h
  split at h
  · exact Except.noConfusion h
  · split at h
    · exact Except.noConfusion h
    · split at h
      · exact Except.noConfusion h
      · injection h with h2
        rw [← h2]

/-- Witness for C8 at a concrete environment and file. -/
theorem C8_witness :
    stripImageMetadata canvasOkEnv fileJpeg =
      Except.ok { name := "a.jpg", type := "image/jpeg", size := 2, lastModified := 42 } ∧
    ImageFile.type { name := "a.jpg", type := "image/jpeg", size := 2, lastModified := 42 } =
      fileJpeg.type :=
  ⟨rfl, C8_sanitize_preserves_type canvasOkEnv fileJpeg _ rfl⟩

/-- C9: every call to the upload collaborator is made with the configured
endpoint list when it is present and non-empty, and with exactly the one
built-in default endpoint when it is absent or empty. -/
theorem C9_upload_endpoint_fallback (env : PipelineEnv) (files : List ImageFile) :
    (∀ c ∈ (uploadImages env files).uploadCalls,
        c.2 = effectiveServers env.blossomServers) ∧
    (env.blossomServers = none ∨ env.blossomServers = some [] →
        effectiveServers env.blossomServers = [defaultServer]) ∧
    (∀ l, env.blossomServers = some l → l ≠ [] →
        effectiveServers env.blossomServers = l) := by
  refine ⟨?_, ?_, ?_⟩
  · intro c hc
    cases h1 : typeCheckFails files with
    | true => simp [uploadImages, h1] at hc
    | false =>
    cases h2 : sizeCheckFails files with
    | true => simp [uploadImages, h1, h2] at hc
    | false =>
    cases h3 : promiseAll (previewOutcomes env files) with
    | error e => simp [uploadImages, h1, h2, h3] at hc
    | ok ps =>
    cases h4 : promiseAll (sanOutcomes env files) with
    | error e => simp [uploadImages, h1, h2, h3, h4] at hc
    | ok stripped =>
    cases h5 : env.isLoggedIn with
    | false => simp [uploadImages, h1, h2, h3, h4, h5] at hc
    | true =>
    cases h6 : promiseAll (upOutcomes env stripped) with
    | error e =>
      simp [uploadImages, h1, h2, h3, h4, h5, h6, uploadCallsOf] at hc
      obtain ⟨f, hf, rfl⟩ := hc
      rfl
    | ok responses =>
      simp [uploadImages, h1, h2, h3, h4, h5, h6, uploadCallsOf] at hc
      obtain ⟨f, hf, rfl⟩ := hc
      rfl
  · rintro (h | h) <;> rw [h] <;> rfl
  · intro l hl hne
    rw [hl]
    show (if l.length > 0 then l else [defaultServer]) = l
    rw [if_pos (List.length_pos.mpr hne)]

/-- Witness for C9: the fallback on an absent configuration and the
pass-through of a non-empty configuration, at concrete inputs. -/
theorem C9_witness :
    effectiveServers none = [defaultServer] ∧
    effectiveServers (some ["https://a"]) = ["https://a"] :=
  ⟨(C9_upload_endpoint_fallback envUnauth []).2.1 (Or.inl rfl),
   (C9_upload_endpoint_fallback { envUnauth with blossomServers := some ["https://a"] } []).2.2
     ["https://a"] rfl (by simp)⟩

/-- C2, amended: the resolver resolves to absence on a non-array response
and when no tag has first element "url"; when the FIRST tag whose first
element is "url" has length at least 2 it returns that tag's second
element, and when that first such tag is shorter it resolves to absence
(even if a later url tag is long enough). The resolver is a total
function, so it never throws. -/
theorem C2_resolver_amended (resp : JSValue) :
    (resp.isArray = false → resolveResponse resp = JSValue.nullV) ∧
    (∀ tags, resp = JSValue.arr tags → tags.find? tagIsUrl = none →
        resolveResponse resp = JSValue.nullV) ∧
    (∀ tags es, resp = JSValue.arr tags → tags.find? tagIsUrl = some (JSValue.arr es) →
        es.length < 2 → resolveResponse resp = JSValue.nullV) ∧
    (∀ tags es, resp = JSValue.arr tags → tags.find? tagIsUrl = some (JSValue.arr es) →
        2 ≤ es.length → resolveResponse resp = es.getD 1 JSValue.nullV) := by
  refine ⟨?_, ?_, ?_, ?_⟩
  · intro h
    cases resp with
    | arr es => simp [JSValue.isArray] at h
    | str s => rfl
    | nullV => rfl
    | other t => rfl
  · rintro tags rfl hf
    simp only [resolveResponse]
    rw [hf]
  · rintro tags es rfl hf hlen
    simp only [resolveResponse]
    rw [hf]
    show (if es.length > 1 then es.getD 1 JSValue.nullV else JSValue.nullV) = JSValue.nullV
    rw [if_neg (by omega)]
  · rintro tags es rfl hf hlen
    simp only [resolveResponse]
    rw [hf]
    show (if es.length > 1 then es.getD 1 JSValue.nullV else JSValue.nullV) =
      es.getD 1 JSValue.nullV
    rw [if_pos (by omega)]

/-- Witness for C2 at the spec's four example responses. -/
theorem C2_witness :
    resolveResponse (JSValue.other true) = JSValue.nullV ∧
    resolveResponse (JSValue.arr [JSValue.arr [JSValue.str "size", JSValue.str "100"]]) =
      JSValue.nullV ∧
    resolveResponse (JSValue.arr [JSValue.arr [JSValue.str "url"]]) = JSValue.nullV ∧
    resolveResponse respUrl = JSValue.str "https://x/1.png" :=
  ⟨(C2_resolver_amended (JSValue.other true)).1 rfl,
   (C2_resolver_amended _).2.1 [JSValue.arr [JSValue.str "size", JSValue.str "100"]] rfl rfl,
   (C2_resolver_amended _).2.2.1 [JSValue.arr [JSValue.str "url"]] [JSValue.str "url"] rfl rfl
     (by decide),
   (C2_resolver_amended _).2.2.2 _ [JSValue.str "url", JSValue.str "https://x/1.png"] rfl rfl
     (by decide)⟩

/-- Counterexample to C2 as stated: the claim demands the second element of
the first tag satisfying BOTH conditions (first element "url" and length
at least 2), which on this response is "https://x/1.png" (`resolveClaim`
formalises the claim's words); the source's `find` checks only the first
element, stops at the short `["url"]` tag, and resolves to absence. -/
theorem C2_counterexample :
    resolveResponse respSkipsShortTag = JSValue.nullV ∧
    resolveClaim respSkipsShortTag = JSValue.str "https://x/1.png" ∧
    JSValue.nullV ≠ JSValue.str "https://x/1.png" :=
  ⟨rfl, rfl, nofun⟩

/-- C10: a response with tag `["url", ""]` resolves to the empty string,
the run counts as a non-empty success (no failure surfaced), the per-URL
callback is invoked with the empty string, and that is byte-for-byte the
same argument `removePreview`/`clearAll` send as the remove/clear
sentinel. -/
theorem C10_empty_url_collides_with_sentinel :
    resolveResponse respEmptyUrl = JSValue.str "" ∧
    (uploadImages envEmptyUrl [fileJpeg]).urls = [JSValue.str ""] ∧
    (uploadImages envEmptyUrl [fileJpeg]).failure = none ∧
    (uploadImages envEmptyUrl [fileJpeg]).modalShown = false ∧
    handleChangeCallbackArgs (uploadImages envEmptyUrl [fileJpeg]) = [JSValue.str ""] ∧
    removePreviewCallbackArg = JSValue.str "" :=
  ⟨rfl, rfl, rfl, rfl, rfl, rfl⟩

/-- C5: when the caller is not authenticated the upload stage is skipped —
no upload-collaborator call is made — and the pipeline returns an empty
URL sequence. -/
theorem C5_unauthenticated_skips_upload (env : PipelineEnv) (files : List ImageFile)
    (h : env.isLoggedIn = false) :
    (uploadImages env files).uploadCalls = [] ∧ (uploadImages env files).urls = [] := by
  cases h1 : typeCheckFails files with
  | true => simp [uploadImages, h1]
  | false =>
  cases h2 : sizeCheckFails files with
  | true => simp [uploadImages, h1, h2]
  | false =>
  cases h3 : promiseAll (previewOutcomes env files) with
  | error e => simp [uploadImages, h1, h2, h3]
  | ok ps =>
  cases h4 : promiseAll (sanOutcomes env files) with
  | error e => simp [uploadImages, h1, h2, h3, h4]
  | ok stripped => simp [uploadImages, h1, h2, h3, h4, h, finalize, imageUrlsOf]

/-- Witness for C5: an unauthenticated run over one valid file. -/
theorem C5_witness :
    (uploadImages envUnauth [fileJpeg]).uploadCalls = [] ∧
    (uploadImages envUnauth [fileJpeg]).urls = [] :=
  C5_unauthenticated_skips_upload envUnauth [fileJpeg] rfl

/-- A projection helper: when resolution produced at least one URL,
`finalize` returns exactly the resolved list. -/
theorem finalize_of_pos (evs : List (Option Nat)) (calls : List (ImageFile × List String))
    (rs : List JSValue) (h : 0 < (imageUrlsOf rs).length) :
    (finalize evs calls rs).urls = imageUrlsOf rs := by
  unfold finalize
  rw [if_pos h]

/-- The last progress event of a cons-append trace ending in the sentinel. -/
@[simp] theorem getLast_cons_concat {α : Type} (a b : α) (l : List α) :
    (a :: (l ++ [b])).getLast? = some b := by
  rw [← List.cons_append, List.getLast?_concat]

/-- The last progress event of a two-stage trace ending in the sentinel. -/
@[simp] theorem getLast_cons_append_concat {α : Type} (a b : α) (l1 l2 : List α) :
    (a :: (l1 ++ (l2 ++ [b]))).getLast? = some b := by
  rw [← List.append_assoc, ← List.cons_append, List.getLast?_concat]

/-- C4: validation fails — as one aggregate error that aborts the whole
batch before any progress event, sanitize step, or upload call — if and
only if some file's declared type is outside the allow-set or some file's
size exceeds `MAX_FILE_SIZE`. -/
theorem C4_validation_aggregate (files : List ImageFile) :
    ((typeCheckFails files || sizeCheckFails files) = true ↔
      ∃ f ∈ files, f.type ∉ ALLOWED_TYPES ∨ MAX_FILE_SIZE < f.size) ∧
    (∀ env : PipelineEnv, (typeCheckFails files || sizeCheckFails files) = true →
      (uploadImages env files).urls = [] ∧
      (uploadImages env files).uploadCalls = [] ∧
      (uploadImages env files).progressEvents = [none] ∧
      ((uploadImages env files).failure = some typeErrMsg ∨
        (uploadImages env files).failure = some sizeErrMsg)) := by
  constructor
  · rw [Bool.or_eq_true]
    simp only [typeCheckFails, sizeCheckFails, List.any_eq_true, decide_eq_true_eq]
    constructor
    · rintro (⟨f, hf, hc⟩ | ⟨f, hf, hs⟩)
      · exact ⟨f, hf, Or.inl ((typeCond_iff f.type).mp hc)⟩
      · exact ⟨f, hf, Or.inr hs⟩
    · rintro ⟨f, hf, hc | hs⟩
      · exact Or.inl ⟨f, hf, (typeCond_iff f.type).mpr hc⟩
      · exact Or.inr ⟨f, hf, hs⟩
  · intro env h
    cases h1 : typeCheckFails files with
    | true =>
      exact ⟨by simp [uploadImages, h1], by simp [uploadImages, h1],
        by simp [uploadImages, h1], Or.inl (by simp [uploadImages, h1, errText])⟩
    | false =>
      cases h2 : sizeCheckFails files with
      | true =>
        exact ⟨by simp [uploadImages, h1, h2], by simp [uploadImages, h1, h2],
          by simp [uploadImages, h1, h2], Or.inr (by simp [uploadImages, h1, h2, errText])⟩
      | false =>
        rw [h1, h2] at h
        cases h

/-- Witness for C4: a batch holding one text file is rejected as a whole
with the aggregate type message before any work starts. -/
theorem C4_witness :
    (typeCheckFails [filePlain] || sizeCheckFails [filePlain]) = true ∧
    (uploadImages envUnauth [filePlain]).urls = [] ∧
    (uploadImages envUnauth [filePlain]).uploadCalls = [] ∧
    (uploadImages envUnauth [filePlain]).progressEvents = [none] ∧
    ((uploadImages envUnauth [filePlain]).failure = some typeErrMsg ∨
      (uploadImages envUnauth [filePlain]).failure = some sizeErrMsg) := by
  have h := (C4_validation_aggregate [filePlain]).1.mpr
    ⟨filePlain, by simp, Or.inl (by decide)⟩
  exact ⟨h, (C4_validation_aggregate [filePlain]).2 envUnauth h⟩

/-- C6: if the run reaches finalization without an uncaught failure and the
resolved URL list is empty, exactly one aggregate failure — the
server-misconfiguration remedy text — is surfaced and the result is
empty. -/
theorem C6_resolution_empty_failure (env : PipelineEnv) (files : List ImageFile)
    (hok : firstFailure env files = none)
    (hempty : (uploadImages env files).urls = []) :
    (uploadImages env files).failure = some serverErrMsg ∧
    (uploadImages env files).modalShown = true ∧
    (uploadImages env files).urls = [] := by
  cases h1 : typeCheckFails files with
  | true => simp [firstFailure, h1] at hok
  | false =>
  cases h2 : sizeCheckFails files with
  | true => simp [firstFailure, h1, h2] at hok
  | false =>
  cases h3 : promiseAll (previewOutcomes env files) with
  | error e => simp [firstFailure, h1, h2, h3] at hok
  | ok ps =>
  cases h4 : promiseAll (sanOutcomes env files) with
  | error e => simp [firstFailure, h1, h2, h3, h4] at hok
  | ok stripped =>
  cases h5 : env.isLoggedIn with
  | false =>
    have hfin : uploadImages env files = finalize (some 0 :: sanEvents env files) [] [] := by
      simp [uploadImages, h1, h2, h3, h4, h5]
    rw [hfin]
    obtain ⟨hu, hf, hm⟩ := finalize_of_empty (some 0 :: sanEvents env files) [] [] rfl
    exact ⟨hf, hm, hu⟩
  | true =>
  cases h6 : promiseAll (upOutcomes env stripped) with
  | error e => simp [firstFailure, h1, h2, h3, h4, h5, h6] at hok
  | ok responses =>
    have hfin : uploadImages env files =
        finalize (some 0 :: sanEvents env files ++ upEvents env stripped)
          (uploadCallsOf env stripped) responses := by
      simp [uploadImages, h1, h2, h3, h4, h5, h6]
    rw [hfin] at hempty ⊢
    by_cases hpos : 0 < (imageUrlsOf responses).length
    · exfalso
      rw [finalize_of_pos _ _ _ hpos] at hempty
      rw [hempty] at hpos
      simp at hpos
    · have hemp2 : imageUrlsOf responses = [] := List.length_eq_zero.mp (by omega)
      obtain ⟨hu, hf, hm⟩ := finalize_of_empty _ _ _ hemp2
      exact ⟨hf, hm, hu⟩

/-- Witness for C6: an unauthenticated run with a valid file reaches
finalization with zero URLs and surfaces the single aggregate failure. -/
theorem C6_witness :
    (uploadImages envUnauth [fileJpeg]).failure = some serverErrMsg ∧
    (uploadImages envUnauth [fileJpeg]).modalShown = true ∧
    (uploadImages envUnauth [fileJpeg]).urls = [] :=
  C6_resolution_empty_failure envUnauth [fileJpeg] rfl rfl

/-- C7: any uncaught failure at any stage yields an empty result, ends the
progress event sequence with the `null` sentinel reset, and surfaces the
failure's own message (or the generic fallback for a non-`Error` value) as
the single user-visible failure text. -/
theorem C7_uncaught_failure_path (env : PipelineEnv) (files : List ImageFile) (e : JsError)
    (h : firstFailure env files = some e) :
    (uploadImages env files).urls = [] ∧
    (uploadImages env files).progressEvents.getLast? = some none ∧
    (uploadImages env files).failure = some (errText e) := by
  cases h1 : typeCheckFails files with
  | true =>
    simp [firstFailure, h1] at h
    subst h
    exact ⟨by simp [uploadImages, h1], by simp [uploadImages, h1],
      by simp [uploadImages, h1]⟩
  | false =>
  cases h2 : sizeCheckFails files with
  | true =>
    simp [firstFailure, h1, h2] at h
    subst h
    exact ⟨by simp [uploadImages, h1, h2], by simp [uploadImages, h1, h2],
      by simp [uploadImages, h1, h2]⟩
  | false =>
  cases h3 : promiseAll (previewOutcomes env files) with
  | error e2 =>
    simp [firstFailure, h1, h2, h3] at h
    subst h
    exact ⟨by simp [uploadImages, h1, h2, h3],
      by simp [uploadImages, h1, h2, h3],
      by simp [uploadImages, h1, h2, h3]⟩
  | ok ps =>
  cases h4 : promiseAll (sanOutcomes env files) with
  | error e2 =>
    simp [firstFailure, h1, h2, h3, h4] at h
    subst h
    exact ⟨by simp [uploadImages, h1, h2, h3, h4],
      by simp [uploadImages, h1, h2, h3, h4],
      by simp [uploadImages, h1, h2, h3, h4]⟩
  | ok stripped =>
  cases h5 : env.isLoggedIn with
  | false => simp [firstFailure, h1, h2, h3, h4, h5] at h
  | true =>
  cases h6 : promiseAll (upOutcomes env stripped) with
  | error e2 =>
    simp [firstFailure, h1, h2, h3, h4, h5, h6] at h
    subst h
    exact ⟨by simp [uploadImages, h1, h2, h3, h4, h5, h6],
      by simp [uploadImages, h1, h2, h3, h4, h5, h6],
      by simp [uploadImages, h1, h2, h3, h4, h5, h6]⟩
  | ok responses => simp [firstFailure, h1, h2, h3, h4, h5, h6] at h

/-- Witness for C7: a failing decode propagates its own message and resets
progress. -/
theorem C7_witness :
    (uploadImages envSanFail [fileJpeg]).urls = [] ∧
    (uploadImages envSanFail [fileJpeg]).progressEvents.getLast? = some none ∧
    (uploadImages envSanFail [fileJpeg]).failure =
      some (errText (JsError.error "Failed to load image")) :=
  C7_uncaught_failure_path envSanFail [fileJpeg] (JsError.error "Failed to load image") rfl

/-- Counterexample to C3 as stated: in `envMixed`, `fileJpeg` sanitizes
successfully while `filePngB`'s decode fails, yet the run aborts — no
upload call is made for the sibling that succeeded and its outcome is
discarded (the `Promise.all` join is fail-fast, not isolating). -/
theorem C3_counterexample :
    stripImageMetadata envMixed.canvas fileJpeg =
      Except.ok { name := "a.jpg", type := "image/jpeg", size := 2, lastModified := 42 } ∧
    (uploadImages envMixed [fileJpeg, filePngB]).urls = [] ∧
    (uploadImages envMixed [fileJpeg, filePngB]).uploadCalls = [] ∧
    (uploadImages envMixed [fileJpeg, filePngB]).failure = some "Failed to load image" :=
  ⟨rfl, rfl, rfl, rfl⟩

/-- C3, amended: per-file failures in the concurrently joined stages are
NOT isolated, in either stage. If any file's sanitize outcome is a
rejection, the whole batch takes the failure path: the result is empty,
no upload call is made, and a failure text is surfaced, regardless of
sibling successes. Likewise, if the sanitize stage succeeds and any
sanitized file's upload outcome is a rejection (when authenticated), the
run takes the failure path: the result is empty and a failure text is
surfaced — sibling upload outcomes are discarded. -/
theorem C3_amended_failfast (env : PipelineEnv) (files : List ImageFile)
    (ht : typeCheckFails files = false) (hs : sizeCheckFails files = false)
    (hp : ∀ e, promiseAll (previewOutcomes env files) ≠ Except.error e) :
    (∀ f ∈ files, (stripImageMetadata env.canvas f).isOk = false →
      (uploadImages env files).urls = [] ∧
      (uploadImages env files).uploadCalls = [] ∧
      ∃ m, (uploadImages env files).failure = some m) ∧
    (∀ stripped, promiseAll (sanOutcomes env files) = Except.ok stripped →
      env.isLoggedIn = true →
      ∀ g ∈ stripped,
        (env.upload g (effectiveServers env.blossomServers)).isOk = false →
        (uploadImages env files).urls = [] ∧
        ∃ m, (uploadImages env files).failure = some m) := by
  constructor
  · intro f hmem hfail
    have hmem2 : stripImageMetadata env.canvas f ∈ sanOutcomes env files :=
      List.mem_map_of_mem _ hmem
    obtain ⟨e, he⟩ := promiseAll_isError_of_mem hmem2 hfail
    cases h3 : promiseAll (previewOutcomes env files) with
    | error e2 => exact absurd h3 (hp e2)
    | ok ps =>
      exact ⟨by simp [uploadImages, ht, hs, h3, he], by simp [uploadImages, ht, hs, h3, he],
        ⟨errText e, by simp [uploadImages, ht, hs, h3, he]⟩⟩
  · intro stripped hsan hlog g hg hup
    have hmem2 : env.upload g (effectiveServers env.blossomServers) ∈ upOutcomes env stripped := by
      unfold upOutcomes
      exact List.mem_map_of_mem _ hg
    obtain ⟨e, he⟩ := promiseAll_isError_of_mem hmem2 hup
    cases h3 : promiseAll (previewOutcomes env files) with
    | error e2 => exact absurd h3 (hp e2)
    | ok ps =>
      exact ⟨by simp [uploadImages, ht, hs, h3, hsan, hlog, he],
        ⟨errText e, by simp [uploadImages, ht, hs, h3, hsan, hlog, he]⟩⟩

/-- Witness for C3 (amended), exercising both stages: a sanitize rejection
at the concrete mixed batch, and an upload rejection at a batch that
sanitizes fully. -/
theorem C3_witness :
    ((uploadImages envMixed [fileJpeg, filePngB]).urls = [] ∧
      (uploadImages envMixed [fileJpeg, filePngB]).uploadCalls = [] ∧
      ∃ m, (uploadImages envMixed [fileJpeg, filePngB]).failure = some m) ∧
    ((uploadImages envUpFail [fileJpeg]).urls = [] ∧
      ∃ m, (uploadImages envUpFail [fileJpeg]).failure = some m) :=
  ⟨(C3_amended_failfast envMixed [fileJpeg, filePngB] rfl rfl
      (fun e h => Except.noConfusion h)).1 filePngB (by simp) rfl,
   (C3_amended_failfast envUpFail [fileJpeg] rfl rfl
      (fun e h => Except.noConfusion h)).2
     [{ name := "a.jpg", type := "image/jpeg", size := 2, lastModified := 42 }] rfl rfl
     { name := "a.jpg", type := "image/jpeg", size := 2, lastModified := 42 } (by simp) rfl⟩

/-- Counterexample to C1 as stated: with two items whose sanitize
completions arrive out of submission order, the progress written by the
later-submitted item (30) precedes the earlier-submitted item's value (15),
so the trace `[0, 30, 15, 65, 100]` is not monotone — the per-item update
uses the submission index, not a completed-count. Moreover even in
submission order progress can equal 30 before the sanitize stage has
completed all items: with 60 items, the 59th completion (index 58) already
writes `round((59/60)*30) = 30`. -/
theorem C1_counterexample :
    ¬ List.Chain' (· ≤ ·) (progressTrace 2 [1, 0] [0, 1]) ∧ stage1Prog 60 58 = 30 := by
  constructor
  · intro h
    rw [show progressTrace 2 [1, 0] [0, 1] = [0, 30, 15, 65, 100] from rfl] at h
    rcases List.chain'_cons.mp (List.chain'_cons.mp h).2 with ⟨hbad, -⟩
    omega
  · rfl

/-- C1, amended: when per-item completions arrive in submission order, the
progress trace starts at 0 and is monotonically non-decreasing; the final
sanitize update equals 30 and every sanitize update is at most 30; the
final upload update equals 100 (authenticated) and every upload update
lies in the band from 30 to 100. (Progress no longer passes through 30 or
100 exactly at stage completion: rounding can reach the cap one item
early.) -/
theorem C1_progress_amended (n : Nat) (hn : 0 < n) :
    (progressTrace n (List.range n) (List.range n)).head? = some 0 ∧
    List.Chain' (· ≤ ·) (progressTrace n (List.range n) (List.range n)) ∧
    stage1Prog n (n - 1) = 30 ∧
    (∀ i, i < n → stage1Prog n i ≤ 30) ∧
    stage2Prog n (n - 1) = 100 ∧
    (∀ i, i < n → 30 ≤ stage2Prog n i ∧ stage2Prog n i ≤ 100) := by
  obtain ⟨m, rfl⟩ : ∃ m, n = m + 1 := ⟨n - 1, by omega⟩
  refine ⟨rfl, ?_, stage1Prog_last _ hn, fun i hi => stage1Prog_le _ i hn hi,
    stage2Prog_last _ hn, fun i hi => stage2Prog_bounds _ i hn hi⟩
  unfold progressTrace
  rw [List.chain'_cons']
  refine ⟨fun y _ => Nat.zero_le y, ?_⟩
  rw [List.chain'_append]
  refine ⟨chain_le_map_range _ (fun i => ?_) (m + 1),
    chain_le_map_range _ (fun i => ?_) (m + 1), ?_⟩
  · exact jsRound_le_jsRound (m + 1) (by omega)
  · exact Nat.add_le_add_left (jsRound_le_jsRound (m + 1) (by omega)) 30
  · intro x hx y hy
    rw [List.range_succ] at hx
    simp only [List.map_append, List.map_cons, List.map_nil, List.getLast?_concat] at hx
    rw [List.range_succ_eq_map] at hy
    simp only [List.map_cons, List.head?_cons] at hy
    rw [← Option.mem_some_iff.mp hx, ← Option.mem_some_iff.mp hy]
    have h1 : stage1Prog (m + 1) m = 30 := by
      have h2 := stage1Prog_last (m + 1) (Nat.succ_pos m)
      simpa using h2
    rw [h1]
    exact Nat.le_add_right 30 _

/-- Witness for C1 (amended) at a two-item batch. -/
theorem C1_witness :
    0 < 2 ∧
    ((progressTrace 2 (List.range 2) (List.range 2)).head? = some 0 ∧
      List.Chain' (· ≤ ·) (progressTrace 2 (List.range 2) (List.range 2)) ∧
      stage1Prog 2 (2 - 1) = 30 ∧
      (∀ i, i < 2 → stage1Prog 2 i ≤ 30) ∧
      stage2Prog 2 (2 - 1) = 100 ∧
      (∀ i, i < 2 → 30 ≤ stage2Prog 2 i ∧ stage2Prog 2 i ≤ 100)) :=
  ⟨Nat.succ_pos 1, C1_progress_amended 2 (Nat.succ_pos 1)⟩

end FileUploader
